import Mathlib

/-!
Verification of the data-availability (DA) blob pipeline of this beacon node,
as a shallow embedding of the Rust sources:
  beacon_node/beacon_chain/src/blob_verification.rs
  beacon_node/beacon_chain/src/blob_sidecar_cache.rs
  beacon_node/beacon_chain/src/fetch_blobs.rs
  consensus/types/src/blob_sidecar.rs
Machine integers are modelled as Nat (the code never exercises overflow on the
quantities involved); hashes, commitments, proofs, public keys and opaque
payloads are modelled as Nat identifiers; fallible calls return Except.
External collaborators (slot clock, fork choice, proposer cache, pubkey cache,
KZG library, execution engine, persistence) are modelled as oracle fields of a
chain structure, so that the control flow of the embedded functions is exactly
the control flow of the source.
-/

/-- Slots are unsigned integers in the source (consensus/types Slot). -/
abbrev Slot := Nat

/-- Epochs are unsigned integers in the source (consensus/types Epoch). -/
abbrev Epoch := Nat

/-- Hash256 values are modelled as Nat identifiers. -/
abbrev Hash256 := Nat

/-- Slot::epoch in the source divides the slot by slots_per_epoch. -/
def slot_epoch (slot : Slot) (slots_per_epoch : Nat) : Epoch :=
  slot / slots_per_epoch

/-- Epoch::start_slot in the source multiplies the epoch by slots_per_epoch. -/
def epoch_start_slot (epoch : Epoch) (slots_per_epoch : Nat) : Slot :=
  epoch * slots_per_epoch

/-- The fork variants of SignedBeaconBlock in this branch of the source
(types/src/signed_beacon_block.rs): Base, Altair, Merge, Capella, Eip4844. -/
inductive ForkName where
  | base
  | altair
  | merge
  | capella
  | eip4844
deriving DecidableEq

/-- Container of the data that identifies an individual blob
(consensus/types/src/blob_sidecar.rs lines 32-35). -/
structure BlobIdentifier where
  block_root : Hash256
  index : Nat
deriving DecidableEq

/-- BlobSidecar (consensus/types/src/blob_sidecar.rs lines 116-128): note the
struct stores block_root directly as its first field; the blob payload, the
kzg commitment and the kzg proof are modelled as opaque Nat identifiers. -/
structure BlobSidecar where
  block_root : Hash256
  index : Nat
  slot : Slot
  block_parent_root : Hash256
  proposer_index : Nat
  blob : Nat
  kzg_commitment : Nat
  kzg_proof : Nat
deriving DecidableEq

/-- BlobSidecar::id (consensus/types/src/blob_sidecar.rs lines 145-150). -/
def BlobSidecar.id (s : BlobSidecar) : BlobIdentifier :=
  { block_root := s.block_root, index := s.index }

/-- BlobSidecar::empty (consensus/types/src/blob_sidecar.rs lines 152-163). -/
def BlobSidecar.empty : BlobSidecar :=
  { block_root := 0
    index := 0
    slot := 0
    block_parent_root := 0
    proposer_index := 0
    blob := 0
    kzg_commitment := 0
    kzg_proof := 0 }

/-- SignedBlobSidecar: a BlobSidecar message together with a signature. -/
structure SignedBlobSidecar where
  message : BlobSidecar
  signature : Nat
deriving DecidableEq

/-- BlobsSidecar (the pre-decoupling bundle type carried by
BlockWrapper::BlockAndBlob); the fields consulted by the embedded functions are
beacon_block_root and beacon_block_slot; blobs and the aggregated proof are
opaque. -/
structure BlobsSidecar where
  beacon_block_root : Hash256
  beacon_block_slot : Slot
  blobs : List Nat
  kzg_aggregated_proof : Nat
deriving DecidableEq

/-- SignedBeaconBlock, modelled with the fields and fork-dependent accessors
the embedded functions consult: the fork variant, the slot, the declared blob
kzg commitments and the execution payload transactions. -/
structure SignedBeaconBlock where
  fork : ForkName
  slot : Slot
  commitments : List Nat
  transactions : Option (List Nat)
deriving DecidableEq

/-- BeaconBlockBody::blob_kzg_commitments returns Err for every pre-Eip4844
fork variant and Ok with the declared list for Eip4844. -/
def SignedBeaconBlock.blob_kzg_commitments (b : SignedBeaconBlock) :
    Except Unit (List Nat) :=
  match b.fork with
  | .eip4844 => .ok b.commitments
  | _ => .error ()

/-- BeaconBlockBody::execution_payload_eip4844 followed by
ExecPayload::transactions: Err for pre-Eip4844 variants, otherwise the
payload transactions (an Option, none when the payload carries none). -/
def SignedBeaconBlock.payload_transactions (b : SignedBeaconBlock) :
    Except Unit (Option (List Nat)) :=
  match b.fork with
  | .eip4844 => .ok b.transactions
  | _ => .error ()

/-- SignedBeaconBlockAndBlobsSidecar (types): a block paired with a sidecar
bundle. -/
structure SignedBeaconBlockAndBlobsSidecar where
  beacon_block : SignedBeaconBlock
  blobs_sidecar : BlobsSidecar
deriving DecidableEq

/-- BlockWrapper (blob_verification.rs lines 327-330). -/
inductive BlockWrapper where
  | block (b : SignedBeaconBlock)
  | blockAndBlob (b : SignedBeaconBlock) (s : BlobsSidecar)
deriving DecidableEq

/-- AsBlock::slot for BlockWrapper (blob_verification.rs lines 567-572). -/
def BlockWrapper.slot : BlockWrapper → Slot
  | .block b => b.slot
  | .blockAndBlob b _ => b.slot

/-- AvailableBlockInner (blob_verification.rs lines 439-442). -/
inductive AvailableBlockInner where
  | block (b : SignedBeaconBlock)
  | blockAndBlob (p : SignedBeaconBlockAndBlobsSidecar)
deriving DecidableEq

/-- AvailableBlock (blob_verification.rs line 434). -/
structure AvailableBlock where
  inner : AvailableBlockInner
deriving DecidableEq

/-- AvailableBlock::blobs (blob_verification.rs lines 511-518). -/
def AvailableBlock.blobs (a : AvailableBlock) : Option BlobsSidecar :=
  match a.inner with
  | .block _ => none
  | .blockAndBlob p => some p.blobs_sidecar

/-- AvailableBlock::deconstruct (blob_verification.rs lines 520-531). -/
def AvailableBlock.deconstruct (a : AvailableBlock) :
    SignedBeaconBlock × Option BlobsSidecar :=
  match a.inner with
  | .block b => (b, none)
  | .blockAndBlob p => (p.beacon_block, some p.blobs_sidecar)

/-- BeaconChainError variants reachable from the embedded functions. -/
inductive BeaconChainErr where
  | unableToReadSlot
  | validatorPubkeyCacheLockTimeout
  | beaconStateError (e : Nat)
deriving DecidableEq

/-- BlobReconstructionError (types/src/signed_beacon_block.rs). -/
inductive BlobReconstructionError where
  | unavailableBlobs
  | inconsistentFork
deriving DecidableEq

/-- BlobError (blob_verification.rs lines 20-114), with the payload fields the
source carries. -/
inductive BlobError where
  | futureSlot (message_slot : Slot) (latest_permissible_slot : Slot)
  | slotMismatch (blob_slot : Slot) (block_slot : Slot)
  | kzgCommitmentMissing
  | transactionsMissing
  | transactionCommitmentMismatch
  | trustedSetupNotInitialized
  | invalidKzgProof
  | kzgError (e : Nat)
  | beaconChainError (e : BeaconChainErr)
  | unavailableBlobs
  | inconsistentFork
  | unknownHeadBlock (beacon_block_root : Hash256)
  | invalidSubnet (expected : Nat) (received : Nat)
  | pastFinalizedSlot (blob_slot : Slot) (finalized_slot : Slot)
  | proposerIndexMismatch (sidecar : Nat) (local_index : Nat)
  | proposerSignatureInvalid
  | repeatSidecar (proposer : Nat) (slot : Slot) (blob_index : Nat)
  | unknownValidator (v : Nat)
deriving DecidableEq

/-- From-conversion of BlobReconstructionError into BlobError
(blob_verification.rs lines 116-123). -/
def BlobReconstructionError.toBlobError : BlobReconstructionError → BlobError
  | .unavailableBlobs => .unavailableBlobs
  | .inconsistentFork => .inconsistentFork

/-- DataAvailabilityCheckRequired (blob_verification.rs lines 367-371). -/
inductive DataAvailabilityCheckRequired where
  | yes
  | no
deriving DecidableEq

/-- The beacon chain, reduced to the oracle fields the embedded functions
consult: configuration constants and the external collaborators of spec
section 6, each a pure lookup modelling one read-only call. -/
structure BeaconChain where
  slots_per_epoch : Nat
  data_availability_boundary : Option Epoch
  now_with_future_tolerance : Option Slot
  finalized_epoch : Epoch
  proposer_cache_get_slot : Hash256 → Slot → Option (Nat × Nat)
  head_state_proposer_index : Slot → Except Nat Nat
  head_state_fork : Nat
  pubkey_cache_available : Bool
  pubkey_cache_get : Nat → Option Nat
  verify_blob_signature : SignedBlobSidecar → Nat → Nat → Bool
  fork_choice_get_block : Hash256 → Option Unit
  early_attester_get_proto_block : Hash256 → Option Unit
  kzg : Option Unit
  kzg_commitments_match_transactions : List Nat → List Nat → Bool
  validate_blobs_sidecar : Slot → Hash256 → List Nat → BlobsSidecar → Except Nat Bool

/-- Modelled from the spec: SignedBeaconBlock::reconstruct_empty_blobs lives in
types/src/signed_beacon_block.rs, which is not part of the sources here.
Spec section 4.3 Rule A: for a DA-era block it synthesizes a degenerate empty
bundle with no new cryptographic proof, and the error variants UnavailableBlobs
and InconsistentFork exist for blocks that cannot be so reconstructed; the
spec flags as an open question whether a non-empty commitment list is refused,
and this model refuses it. No theorem below depends on this definition beyond
the type of its result. -/
def SignedBeaconBlock.reconstruct_empty_blobs (b : SignedBeaconBlock)
    (block_root_opt : Option Hash256) :
    Except BlobReconstructionError BlobsSidecar :=
  match b.blob_kzg_commitments with
  | .error _ => .error .inconsistentFork
  | .ok cs =>
    if cs.isEmpty then
      .ok { beacon_block_root := block_root_opt.getD 0
            beacon_block_slot := b.slot
            blobs := []
            kzg_aggregated_proof := 0 }
    else
      .error .unavailableBlobs

/-- AvailableBlock::new (blob_verification.rs lines 445-478). -/
def AvailableBlock.new (beacon_block : SignedBeaconBlock) (block_root : Hash256)
    (da_check_required : DataAvailabilityCheckRequired) :
    Except BlobError AvailableBlock :=
  match beacon_block.fork with
  | .base | .altair | .capella | .merge =>
    .ok { inner := .block beacon_block }
  | .eip4844 =>
    match da_check_required with
    | .yes =>
      match beacon_block.reconstruct_empty_blobs (some block_root) with
      | .error e => .error e.toBlobError
      | .ok blobs_sidecar =>
        let pair : SignedBeaconBlockAndBlobsSidecar :=
          { beacon_block := beacon_block, blobs_sidecar := blobs_sidecar }
        .ok { inner := .blockAndBlob pair }
    | .no =>
      .ok { inner := .block beacon_block }

/-- AvailableBlock::new_with_blobs (blob_verification.rs lines 482-509). -/
def AvailableBlock.new_with_blobs (beacon_block : SignedBeaconBlock)
    (blobs_sidecar : BlobsSidecar)
    (da_check_required : DataAvailabilityCheckRequired) :
    Except BlobError AvailableBlock :=
  match beacon_block.fork with
  | .base | .altair | .capella | .merge =>
    .error .inconsistentFork
  | .eip4844 =>
    match da_check_required with
    | .yes =>
      let pair : SignedBeaconBlockAndBlobsSidecar :=
        { beacon_block := beacon_block, blobs_sidecar := blobs_sidecar }
      .ok { inner := .blockAndBlob pair }
    | .no =>
      .ok { inner := .block beacon_block }

/-- verify_data_availability (blob_verification.rs lines 288-320): the
commitment/transaction binding check, then the trusted-setup presence check,
then the batched KZG proof check, short-circuiting in that order. -/
def verify_data_availability (chain : BeaconChain) (blob_sidecar : BlobsSidecar)
    (kzg_commitments : List Nat) (transactions : List Nat)
    (block_slot : Slot) (block_root : Hash256) : Except BlobError Unit :=
  if ¬ chain.kzg_commitments_match_transactions transactions kzg_commitments then
    .error .transactionCommitmentMismatch
  else
    match chain.kzg with
    | none => .error .trustedSetupNotInitialized
    | some _ =>
      match chain.validate_blobs_sidecar block_slot block_root kzg_commitments
          blob_sidecar with
      | .error e => .error (.kzgError e)
      | .ok false => .error .invalidKzgProof
      | .ok true => .ok ()

/-- The computation of the da_check_required flag inside into_available_block
(blob_verification.rs lines 387-395): Option::map_or over the configured
boundary, comparing the epoch of the block slot with the boundary epoch. -/
def compute_da_check_required (boundary : Option Epoch) (slot : Slot)
    (slots_per_epoch : Nat) : DataAvailabilityCheckRequired :=
  match boundary with
  | none => .no
  | some b =>
    if slot_epoch slot slots_per_epoch ≥ b then .yes else .no

/-- Decidable equality for Except values with decidable components. -/
instance instDecidableEqExceptSpec {e a : Type} [DecidableEq e] [DecidableEq a] :
    DecidableEq (Except e a) := fun x y =>
  match x, y with
  | .error u, .error v =>
    if h : u = v then .isTrue (congrArg Except.error h)
    else .isFalse (fun hc => h (by cases hc; rfl))
  | .ok u, .ok v =>
    if h : u = v then .isTrue (congrArg Except.ok h)
    else .isFalse (fun hc => h (by cases hc; rfl))
  | .error _, .ok _ => .isFalse (fun hc => Except.noConfusion hc)
  | .ok _, .error _ => .isFalse (fun hc => Except.noConfusion hc)

/-- Instrumented result of into_available_block: the returned value together
with the da_check_required flag the function computed and whether
verify_data_availability was invoked. -/
structure IntoAvailableOutcome where
  result : Except BlobError AvailableBlock
  daCheckRequired : DataAvailabilityCheckRequired
  verifierInvoked : Bool
deriving DecidableEq

/-- IntoAvailableBlock::into_available_block for BlockWrapper
(blob_verification.rs lines 381-426), instrumented with the computed flag and
a marker set exactly on the paths where the source calls
verify_data_availability. -/
def BlockWrapper.into_available_block (w : BlockWrapper) (block_root : Hash256)
    (chain : BeaconChain) : IntoAvailableOutcome :=
  let da_check_required :=
    compute_da_check_required chain.data_availability_boundary w.slot
      chain.slots_per_epoch
  match w with
  | .block blk =>
    let r := AvailableBlock.new blk block_root da_check_required
    { result := r, daCheckRequired := da_check_required, verifierInvoked := false }
  | .blockAndBlob blk sc =>
    match da_check_required with
    | .yes =>
      match blk.blob_kzg_commitments with
      | .error _ =>
        { result := .error .kzgCommitmentMissing,
          daCheckRequired := da_check_required, verifierInvoked := false }
      | .ok kzg_commitments =>
        match blk.payload_transactions with
        | .error _ =>
          { result := .error .transactionsMissing,
            daCheckRequired := da_check_required, verifierInvoked := false }
        | .ok none =>
          { result := .error .transactionsMissing,
            daCheckRequired := da_check_required, verifierInvoked := false }
        | .ok (some transactions) =>
          let v := verify_data_availability chain sc kzg_commitments
            transactions blk.slot block_root
          match v with
          | .error e =>
            { result := .error e,
              daCheckRequired := da_check_required, verifierInvoked := true }
          | .ok () =>
            let r := AvailableBlock.new_with_blobs blk sc
              da_check_required
            { result := r,
              daCheckRequired := da_check_required, verifierInvoked := true }
    | .no =>
      let r := AvailableBlock.new_with_blobs blk sc
        da_check_required
      { result := r,
        daCheckRequired := da_check_required, verifierInvoked := false }

/-- validate_blob_for_gossip (blob_verification.rs lines 137-165): for a
BlockAndBlob wrapper, the future-slot check and the slot-mismatch check, then
delegation to into_available_block. The FutureSlot fields are written exactly
as the source writes them at lines 150-153. -/
def validate_blob_for_gossip (w : BlockWrapper) (block_root : Hash256)
    (chain : BeaconChain) : Except BlobError AvailableBlock :=
  match w with
  | .blockAndBlob block blobs_sidecar =>
    let blob_slot := blobs_sidecar.beacon_block_slot
    match chain.now_with_future_tolerance with
    | none => .error (.beaconChainError .unableToReadSlot)
    | some latest_permissible_slot =>
      if blob_slot > latest_permissible_slot then
        .error (.futureSlot latest_permissible_slot blob_slot)
      else if blob_slot ≠ block.slot then
        .error (.slotMismatch blob_slot block.slot)
      else
        (BlockWrapper.into_available_block w block_root chain).result
  | .block _ =>
    (BlockWrapper.into_available_block w block_root chain).result

/-- validate_blob_sidecar_for_gossip (blob_verification.rs lines 167-286):
subnet check, future-slot check, finalized-slot check, proposer resolution and
identity check, signature check, and last of all the known-block check. -/
def validate_blob_sidecar_for_gossip (chain : BeaconChain)
    (blob_sidecar : SignedBlobSidecar) (subnet : Nat) :
    Except BlobError Unit :=
  let blob_slot := blob_sidecar.message.slot
  let blob_index := blob_sidecar.message.index
  let block_root := blob_sidecar.message.block_root
  if blob_index ≠ subnet then
    .error (.invalidSubnet blob_index subnet)
  else
    match chain.now_with_future_tolerance with
    | none => .error (.beaconChainError .unableToReadSlot)
    | some latest_permissible_slot =>
      if blob_slot > latest_permissible_slot then
        .error (.futureSlot blob_slot latest_permissible_slot)
      else
        let latest_finalized_slot :=
          epoch_start_slot chain.finalized_epoch chain.slots_per_epoch
        if blob_slot ≤ latest_finalized_slot then
          .error (.pastFinalizedSlot blob_slot latest_finalized_slot)
        else
          let proposer_shuffling_root := blob_sidecar.message.block_parent_root
          let resolved : Except BlobError (Nat × Nat) :=
            match chain.proposer_cache_get_slot proposer_shuffling_root
                blob_slot with
            | some proposer => .ok proposer
            | none =>
              match chain.head_state_proposer_index blob_slot with
              | .error e =>
                .error (.beaconChainError (.beaconStateError e))
              | .ok i => .ok (i, chain.head_state_fork)
          match resolved with
          | .error e => .error e
          | .ok (proposer_index, fork) =>
            let blob_proposer_index := blob_sidecar.message.proposer_index
            if proposer_index ≠ blob_proposer_index then
              .error (.proposerIndexMismatch blob_proposer_index proposer_index)
            else if ¬ chain.pubkey_cache_available then
              .error (.beaconChainError .validatorPubkeyCacheLockTimeout)
            else
              match chain.pubkey_cache_get proposer_index with
              | none => .error (.unknownValidator proposer_index)
              | some pubkey =>
                let signature_is_valid :=
                  chain.verify_blob_signature blob_sidecar pubkey fork
                if ¬ signature_is_valid then
                  .error .proposerSignatureInvalid
                else
                  let block_opt :=
                    match chain.fork_choice_get_block block_root with
                    | some b => some b
                    | none => chain.early_attester_get_proto_block block_root
                  if block_opt.isNone then
                    .error (.unknownHeadBlock block_root)
                  else
                    .ok ()

/-- BlobCacheId (blob_sidecar_cache.rs lines 13-16). -/
structure BlobCacheId where
  block_root : Hash256
  blob_index : Nat
deriving DecidableEq

/-- DEFAULT_BLOB_CACHE_SIZE (blob_sidecar_cache.rs line 5). -/
def DEFAULT_BLOB_CACHE_SIZE : Nat := 10

/-- Association lookup on a recency-ordered entry list (most recent first),
returning the value stored at the first matching key. -/
def assocFind (k : BlobCacheId) :
    List (BlobCacheId × BlobSidecar) → Option BlobSidecar
  | [] => none
  | (k2, v) :: rest => if k2 = k then some v else assocFind k rest

/-- Removal of the first entry with the given key from a recency-ordered entry
list. -/
def assocErase (k : BlobCacheId) :
    List (BlobCacheId × BlobSidecar) → List (BlobCacheId × BlobSidecar)
  | [] => []
  | (k2, v) :: rest => if k2 = k then rest else (k2, v) :: assocErase k rest

/-- The lru crate LruCache, modelled as a capacity plus an entry list ordered
from most to least recently used; the keys of a reachable cache are distinct
(the crate stores them in a hash map). -/
structure LruCache where
  cap : Nat
  entries : List (BlobCacheId × BlobSidecar)
deriving DecidableEq

/-- LruCache::new. -/
def LruCache.new (cap : Nat) : LruCache :=
  { cap := cap, entries := [] }

/-- LruCache::put: if the key is present, replace its value, promote it to
most-recent and return the displaced value; otherwise evict the least recently
used entry when the cache is at capacity, then insert the new entry as
most-recent and return none. -/
def LruCache.put (c : LruCache) (k : BlobCacheId) (v : BlobSidecar) :
    Option BlobSidecar × LruCache :=
  match assocFind k c.entries with
  | some old =>
    (some old, { c with entries := (k, v) :: assocErase k c.entries })
  | none =>
    let trimmed :=
      if c.entries.length = c.cap then c.entries.dropLast else c.entries
    (none, { c with entries := (k, v) :: trimmed })

/-- LruCache::pop: remove and return the entry at the key, if present. -/
def LruCache.pop (c : LruCache) (k : BlobCacheId) :
    Option BlobSidecar × LruCache :=
  match assocFind k c.entries with
  | some v => (some v, { c with entries := assocErase k c.entries })
  | none => (none, c)

/-- LruCache::peek: return the entry at the key without touching recency. -/
def LruCache.peek (c : LruCache) (k : BlobCacheId) : Option BlobSidecar :=
  assocFind k c.entries

/-- BlobSidecarsCache (blob_sidecar_cache.rs lines 8-10): the mutex around the
LRU structure is modelled by explicit state passing, every operation holding
the whole cache exclusively. -/
structure BlobSidecarsCache where
  blobs : LruCache
deriving DecidableEq

/-- Default::default for BlobSidecarsCache (blob_sidecar_cache.rs lines
18-26): an empty cache whose capacity is fixed at construction to
DEFAULT_BLOB_CACHE_SIZE times max_blobs_per_block. -/
def BlobSidecarsCache.default (max_blobs_per_block : Nat) : BlobSidecarsCache :=
  { blobs := LruCache.new (DEFAULT_BLOB_CACHE_SIZE * max_blobs_per_block) }

/-- BlobSidecarsCache::put (blob_sidecar_cache.rs lines 29-42). -/
def BlobSidecarsCache.put (c : BlobSidecarsCache) (block_root : Hash256)
    (blob : BlobSidecar) (blob_index : Nat) :
    Option BlobSidecar × BlobSidecarsCache :=
  let r := c.blobs.put { block_root := block_root, blob_index := blob_index } blob
  (r.1, { blobs := r.2 })

/-- BlobSidecarsCache::pop (blob_sidecar_cache.rs lines 44-49). -/
def BlobSidecarsCache.pop (c : BlobSidecarsCache) (block_root : Hash256)
    (blob_index : Nat) : Option BlobSidecar × BlobSidecarsCache :=
  let r := c.blobs.pop { block_root := block_root, blob_index := blob_index }
  (r.1, { blobs := r.2 })

/-- BlobSidecarsCache::peek (blob_sidecar_cache.rs lines 51-60): a
non-mutating read. -/
def BlobSidecarsCache.peek (c : BlobSidecarsCache) (block_root : Hash256)
    (blob_index : Nat) : Option BlobSidecar :=
  c.blobs.peek { block_root := block_root, blob_index := blob_index }

/-- A blob-and-proof pair returned by the execution engine for one versioned
hash (fetch_blobs.rs response items). -/
structure BlobAndProof where
  blob : Nat
  proof : Nat
deriving DecidableEq

/-- The blob sidecar type built by the fetch pipeline (the decoupled-sidecar
era of the types crate, of which only the fields the pipeline reads are
modelled: the index, the blob payload, and an opaque remainder produced by the
constructor oracle). -/
structure EngineBlobSidecar where
  index : Nat
  blob : Nat
  meta : Nat
deriving DecidableEq

/-- BlobsOrDataColumns (fetch_blobs.rs lines 11-14): the argument type of the
publish callback; data columns are opaque Nat identifiers. -/
inductive BlobsOrDataColumns where
  | blobs (xs : List EngineBlobSidecar)
  | dataColumns (cols : List Nat)
deriving DecidableEq

/-- The error outcomes of fetch_blobs_and_publish: a missing execution layer,
a failed engine request, a failed header/inclusion-proof computation, a spawn
failure under runtime shutdown, a failed persistence call, and the source
panic on a missing KZG trusted setup on the column path (modelled as a
distinguished error). -/
inductive FetchErr where
  | executionLayerMissing
  | requestFailed
  | headerProofFailed
  | kzgMissingOnColumnPath
  | runtimeShutdown
  | processingFailed
deriving DecidableEq

/-- kzg_commitment_to_versioned_hash (state_processing, not among the sources
here): a fixed digest of the commitment, modelled as an injective tagging of
the commitment identifier. -/
def kzg_commitment_to_versioned_hash (c : Nat) : Nat := c

/-- The oracle fields of the chain consulted by fetch_blobs_and_publish:
engine, spec constants, custody configuration, the spawned column build, the
capacity-one handoff channel send, and the persistence call. -/
structure FetchChain where
  execution_layer_present : Bool
  get_blobs : List Nat → Except Unit (List (Option BlobAndProof))
  max_blobs_per_block : Nat
  build_blob_sidecar : Nat → Nat → Except Unit Nat
  slots_per_epoch : Nat
  is_peer_das_enabled_for_epoch : Epoch → Bool
  kzg : Option Unit
  custody_columns_count : Nat
  number_of_columns : Nat
  task_executor_alive : Bool
  build_data_column_sidecars : List Nat → Except Unit (List Nat)
  channel_send_ok : Bool
  process_engine_blobs_result : Except Unit Unit

/-- The block as seen by the fetch pipeline (the post-decoupling
SignedBeaconBlock of fetch_blobs.rs): the fork-dependent commitment accessor,
the slot, and the fallible signed-header-plus-inclusion-proof computation. -/
structure FetchBlock where
  blob_kzg_commitments : Except Unit (List Nat)
  slot : Slot
  header_and_proof : Except Unit (Nat × Nat)
deriving DecidableEq

/-- Observable outcome of one fetch_blobs_and_publish call: the returned
value, every publish-callback invocation in order, the number of sends
attempted on the capacity-one handoff channel, the column sets actually
delivered to the channel, the number of blobs the engine returned, the built
fixed sidecar list handed to persistence, and whether the column-build branch
was taken. -/
structure FetchOutcome where
  result : Except FetchErr Unit
  publishes : List BlobsOrDataColumns
  sendAttempts : Nat
  channelContents : List (List Nat)
  fetchedCount : Nat
  builtSidecars : List (Option EngineBlobSidecar)
  columnPathTaken : Bool
deriving DecidableEq

/-- The fixed blob sidecar list of fetch_blobs.rs lines 77-110: one slot per
index up to max_blobs_per_block, filled from the engine response positions
that returned a blob and whose sidecar construction succeeded (construction
failures are logged and the index is skipped; an out-of-range index is logged
and skipped). -/
def buildFixedSidecarList (chain : FetchChain)
    (response : List (Option BlobAndProof)) : List (Option EngineBlobSidecar) :=
  (List.range chain.max_blobs_per_block).map (fun i =>
    match response.getD i none with
    | none => none
    | some bp =>
      match chain.build_blob_sidecar i bp.blob with
      | .ok m => some { index := i, blob := bp.blob, meta := m }
      | .error _ => none)

/-- fetch_blobs_and_publish (fetch_blobs.rs lines 16-197). The spawned
compute_data_columns task runs concurrently in the source; its effects (the
channel send attempt, the delivered columns, and the supernode publish) are
recorded in the outcome of the call that spawned it. The source panics via
expect when the KZG setup is absent on the column path; the model returns the
distinguished kzgMissingOnColumnPath error there. -/
def fetch_blobs_and_publish (chain : FetchChain) (block : FetchBlock)
    (block_root : Hash256) : FetchOutcome :=
  let versioned_hashes :=
    match block.blob_kzg_commitments with
    | .ok cs => cs.map kzg_commitment_to_versioned_hash
    | .error _ => []
  let num_blobs := versioned_hashes.length
  if versioned_hashes.isEmpty then
    { result := .ok (), publishes := [], sendAttempts := 0,
      channelContents := [], fetchedCount := 0, builtSidecars := [],
      columnPathTaken := false }
  else if ¬ chain.execution_layer_present then
    { result := .error .executionLayerMissing, publishes := [],
      sendAttempts := 0, channelContents := [], fetchedCount := 0,
      builtSidecars := [], columnPathTaken := false }
  else
    match chain.get_blobs versioned_hashes with
    | .error _ =>
      { result := .error .requestFailed, publishes := [], sendAttempts := 0,
        channelContents := [], fetchedCount := 0, builtSidecars := [],
        columnPathTaken := false }
    | .ok response =>
      let num_fetched_blobs := (response.filter Option.isSome).length
      if num_fetched_blobs = 0 then
        { result := .ok (), publishes := [], sendAttempts := 0,
          channelContents := [], fetchedCount := 0, builtSidecars := [],
          columnPathTaken := false }
      else
        let all_blobs_fetched : Bool := decide (num_blobs ≤ num_fetched_blobs)
        match block.header_and_proof with
        | .error _ =>
          { result := .error .headerProofFailed, publishes := [],
            sendAttempts := 0, channelContents := [],
            fetchedCount := num_fetched_blobs, builtSidecars := [],
            columnPathTaken := false }
        | .ok _hp =>
          let fixed_blob_sidecar_list := buildFixedSidecarList chain response
          let peer_das_enabled :=
            chain.is_peer_das_enabled_for_epoch
              (slot_epoch block.slot chain.slots_per_epoch)
          if peer_das_enabled && all_blobs_fetched then
            match chain.kzg with
            | none =>
              { result := .error .kzgMissingOnColumnPath, publishes := [],
                sendAttempts := 0, channelContents := [],
                fetchedCount := num_fetched_blobs,
                builtSidecars := fixed_blob_sidecar_list,
                columnPathTaken := true }
            | some _ =>
              let blobPayloads := fixed_blob_sidecar_list.filterMap
                (fun b => b.map (fun s => s.blob))
              let is_supernode : Bool :=
                decide (chain.custody_columns_count = chain.number_of_columns)
              if ¬ chain.task_executor_alive then
                { result := .error .runtimeShutdown, publishes := [],
                  sendAttempts := 0, channelContents := [],
                  fetchedCount := num_fetched_blobs,
                  builtSidecars := fixed_blob_sidecar_list,
                  columnPathTaken := true }
              else
                let taskPublishes :=
                  match chain.build_data_column_sidecars blobPayloads with
                  | .error _ => ([], 0, [])
                  | .ok data_columns =>
                    let delivered :=
                      if chain.channel_send_ok then [data_columns] else []
                    let pubs :=
                      if is_supernode then
                        [BlobsOrDataColumns.dataColumns data_columns]
                      else []
                    (pubs, 1, delivered)
                let finalResult : Except FetchErr Unit :=
                  match chain.process_engine_blobs_result with
                  | .ok _ => .ok ()
                  | .error _ => .error .processingFailed
                { result := finalResult, publishes := taskPublishes.1,
                  sendAttempts := taskPublishes.2.1,
                  channelContents := taskPublishes.2.2,
                  fetchedCount := num_fetched_blobs,
                  builtSidecars := fixed_blob_sidecar_list,
                  columnPathTaken := true }
          else
            let plainBlobs := fixed_blob_sidecar_list.filterMap id
            let finalResult : Except FetchErr Unit :=
              match chain.process_engine_blobs_result with
              | .ok _ => .ok ()
              | .error _ => .error .processingFailed
            { result := finalResult,
              publishes := [BlobsOrDataColumns.blobs plainBlobs],
              sendAttempts := 0, channelContents := [],
              fetchedCount := num_fetched_blobs,
              builtSidecars := fixed_blob_sidecar_list,
              columnPathTaken := false }

/-- A concrete fetch-pipeline chain whose oracles all succeed; the node
custodies 64 of 128 columns (not a supernode). -/
def exFetchChain : FetchChain :=
  { execution_layer_present := true
    get_blobs := fun hs => .ok (hs.map (fun h => some { blob := h, proof := 0 }))
    max_blobs_per_block := 4
    build_blob_sidecar := fun _ _ => .ok 0
    slots_per_epoch := 32
    is_peer_das_enabled_for_epoch := fun _ => true
    kzg := some ()
    custody_columns_count := 64
    number_of_columns := 128
    task_executor_alive := true
    build_data_column_sidecars := fun _ => .ok [1, 2]
    channel_send_ok := true
    process_engine_blobs_result := .ok () }

/-- A concrete block with one declared commitment for the fetch pipeline. -/
def exFetchBlock : FetchBlock :=
  { blob_kzg_commitments := .ok [1], slot := 5, header_and_proof := .ok (0, 0) }

/-- A concrete sidecar bundle used by witnesses. -/
def exSc : BlobsSidecar :=
  { beacon_block_root := 0, beacon_block_slot := 5, blobs := [],
    kzg_aggregated_proof := 0 }

/-- A concrete pre-Eip4844 block used by witnesses. -/
def exBlockBase : SignedBeaconBlock :=
  { fork := .base, slot := 5, commitments := [], transactions := none }

/-- A concrete Eip4844 block used by witnesses. -/
def exBlock4844 : SignedBeaconBlock :=
  { fork := .eip4844, slot := 5, commitments := [1], transactions := some [1] }

/-- A concrete chain whose oracles all succeed, used by witnesses; witnesses
vary individual fields by record update. -/
def exChain : BeaconChain :=
  { slots_per_epoch := 32
    data_availability_boundary := none
    now_with_future_tolerance := some 5
    finalized_epoch := 0
    proposer_cache_get_slot := fun _ _ => some (7, 1)
    head_state_proposer_index := fun _ => .ok 7
    head_state_fork := 1
    pubkey_cache_available := true
    pubkey_cache_get := fun _ => some 100
    verify_blob_signature := fun _ _ _ => true
    fork_choice_get_block := fun _ => some ()
    early_attester_get_proto_block := fun _ => none
    kzg := some ()
    kzg_commitments_match_transactions := fun _ _ => true
    validate_blobs_sidecar := fun _ _ _ _ => .ok true }

/-- A concrete signed gossip sidecar used by witnesses. -/
def exSignedSidecar : SignedBlobSidecar :=
  { message :=
      { block_root := 9, index := 3, slot := 5, block_parent_root := 4,
        proposer_index := 7, blob := 0, kzg_commitment := 0, kzg_proof := 0 }
    signature := 0 }

/-- Claim C6 counterexample: two sidecars agreeing on every field except the
stored block_root have different identifiers, so id() reads a directly stored
block_root rather than recomputing it from an embedded header (the struct has
no embedded header at all). -/
theorem blob_sidecar_id_reads_stored_root :
    ({ BlobSidecar.empty with block_root := 1 } : BlobSidecar).index =
      ({ BlobSidecar.empty with block_root := 2 } : BlobSidecar).index ∧
    ({ BlobSidecar.empty with block_root := 1 } : BlobSidecar).slot =
      ({ BlobSidecar.empty with block_root := 2 } : BlobSidecar).slot ∧
    ({ BlobSidecar.empty with block_root := 1 } : BlobSidecar).block_parent_root =
      ({ BlobSidecar.empty with block_root := 2 } : BlobSidecar).block_parent_root ∧
    ({ BlobSidecar.empty with block_root := 1 } : BlobSidecar).proposer_index =
      ({ BlobSidecar.empty with block_root := 2 } : BlobSidecar).proposer_index ∧
    ({ BlobSidecar.empty with block_root := 1 } : BlobSidecar).blob =
      ({ BlobSidecar.empty with block_root := 2 } : BlobSidecar).blob ∧
    ({ BlobSidecar.empty with block_root := 1 } : BlobSidecar).kzg_commitment =
      ({ BlobSidecar.empty with block_root := 2 } : BlobSidecar).kzg_commitment ∧
    ({ BlobSidecar.empty with block_root := 1 } : BlobSidecar).kzg_proof =
      ({ BlobSidecar.empty with block_root := 2 } : BlobSidecar).kzg_proof ∧
    ({ BlobSidecar.empty with block_root := 1 } : BlobSidecar).id ≠
      ({ BlobSidecar.empty with block_root := 2 } : BlobSidecar).id := by
  decide

/-- Claim C6 (amended): id() returns the identifier whose block_root is the
sidecar's stored block_root field and whose index is its stored index field;
the root is read from the stored field, so the identifier is determined by
those two fields alone. -/
theorem blob_sidecar_id_spec (s t : BlobSidecar) :
    s.id.block_root = s.block_root ∧ s.id.index = s.index ∧
    (s.block_root = t.block_root → s.index = t.index → s.id = t.id) := by
  refine ⟨rfl, rfl, fun h1 h2 => ?_⟩
  unfold BlobSidecar.id
  rw [h1, h2]

/-- Claim C6 witness for the amended theorem. -/
theorem blob_sidecar_id_spec_witness :
    BlobSidecar.empty.id = ({ BlobSidecar.empty with index := 0 } : BlobSidecar).id := by
  exact (blob_sidecar_id_spec BlobSidecar.empty
    ({ BlobSidecar.empty with index := 0 })).2.2 rfl rfl

/-- Claim C1: AvailableBlock::new_with_blobs is InconsistentFork for every
pre-Eip4844 fork variant regardless of the DA flag; for an Eip4844 block with
DA required it wraps block and sidecars in BlockAndBlob shape, and with DA not
required it discards the sidecars and yields Block shape with blobs() none. -/
theorem new_with_blobs_spec (blk : SignedBeaconBlock) (sc : BlobsSidecar)
    (da : DataAvailabilityCheckRequired) :
    ((blk.fork = .base ∨ blk.fork = .altair ∨ blk.fork = .capella ∨
        blk.fork = .merge) →
      AvailableBlock.new_with_blobs blk sc da = .error .inconsistentFork) ∧
    (blk.fork = .eip4844 →
      AvailableBlock.new_with_blobs blk sc .yes = .ok ⟨.blockAndBlob ⟨blk, sc⟩⟩ ∧
      AvailableBlock.new_with_blobs blk sc .no = .ok ⟨.block blk⟩ ∧
      AvailableBlock.blobs ⟨.block blk⟩ = none) := by
  constructor
  · intro h
    unfold AvailableBlock.new_with_blobs
    rcases h with h | h | h | h <;> rw [h]
  · intro h
    unfold AvailableBlock.new_with_blobs
    rw [h]
    exact ⟨rfl, rfl, rfl⟩

/-- Claim C1 witness: the theorem applied at a pre-Eip4844 block and at an
Eip4844 block. -/
theorem new_with_blobs_spec_witness :
    AvailableBlock.new_with_blobs exBlockBase exSc .yes =
      .error .inconsistentFork ∧
    AvailableBlock.new_with_blobs exBlock4844 exSc .yes =
      .ok ⟨.blockAndBlob ⟨exBlock4844, exSc⟩⟩ := by
  exact ⟨(new_with_blobs_spec exBlockBase exSc .yes).1 (Or.inl rfl),
    ((new_with_blobs_spec exBlock4844 exSc .yes).2 rfl).1⟩

/-- Helper: the instrumented into_available_block reports exactly the flag
computed by compute_da_check_required, on every path. -/
theorem into_available_block_flag (chain : BeaconChain) (w : BlockWrapper)
    (root : Hash256) :
    (BlockWrapper.into_available_block w root chain).daCheckRequired =
      compute_da_check_required chain.data_availability_boundary w.slot
        chain.slots_per_epoch := by
  cases w with
  | block b => rfl
  | blockAndBlob b s =>
    simp only [BlockWrapper.into_available_block]
    repeat' split
    all_goals rfl

/-- Claim C3: into_available_block computes DataAvailabilityCheckRequired as
Yes exactly when the epoch of the block slot is at or after the configured
boundary epoch, and as No for every block when no boundary is configured. -/
theorem into_available_block_da_check (chain : BeaconChain) (w : BlockWrapper)
    (root : Hash256) :
    ((BlockWrapper.into_available_block w root chain).daCheckRequired = .yes ↔
      ∃ b, chain.data_availability_boundary = some b ∧
        b ≤ slot_epoch w.slot chain.slots_per_epoch) ∧
    (chain.data_availability_boundary = none →
      (BlockWrapper.into_available_block w root chain).daCheckRequired = .no) := by
  rw [into_available_block_flag]
  constructor
  · unfold compute_da_check_required
    cases hb : chain.data_availability_boundary with
    | none =>
      simp
    | some b =>
      constructor
      · intro h
        refine ⟨b, rfl, ?_⟩
        by_contra hle
        simp [hle] at h
      · rintro ⟨b2, hb2, hle⟩
        cases hb2
        simp [ge_iff_le, hle]
  · intro h
    unfold compute_da_check_required
    rw [h]

/-- Claim C3 witness: boundary none gives No; boundary 0 on an epoch-0 block
gives Yes. -/
theorem into_available_block_da_check_witness :
    (BlockWrapper.into_available_block (.block exBlockBase) 0 exChain).daCheckRequired
      = .no ∧
    (BlockWrapper.into_available_block (.block exBlockBase) 0
      ({ exChain with data_availability_boundary := some 0 })).daCheckRequired
      = .yes := by
  refine ⟨(into_available_block_da_check exChain (.block exBlockBase) 0).2 rfl, ?_⟩
  exact (into_available_block_da_check
    ({ exChain with data_availability_boundary := some 0 })
    (.block exBlockBase) 0).1.mpr ⟨0, rfl, Nat.zero_le _⟩

/-- Claim C5: verify_data_availability runs the commitment/transaction
binding check, then the trusted-setup presence check, then the batched KZG
proof check, in that order and short-circuiting on first failure, returns Ok
exactly when all three pass, and is a pure function of its inputs. -/
theorem verify_data_availability_spec (chain : BeaconChain)
    (sc : BlobsSidecar) (comms txs : List Nat) (slot : Slot)
    (root : Hash256) :
    (chain.kzg_commitments_match_transactions txs comms = false →
      verify_data_availability chain sc comms txs slot root =
        .error .transactionCommitmentMismatch) ∧
    (chain.kzg_commitments_match_transactions txs comms = true →
      chain.kzg = none →
      verify_data_availability chain sc comms txs slot root =
        .error .trustedSetupNotInitialized) ∧
    (∀ e, chain.kzg_commitments_match_transactions txs comms = true →
      chain.kzg = some () →
      chain.validate_blobs_sidecar slot root comms sc = .error e →
      verify_data_availability chain sc comms txs slot root =
        .error (.kzgError e)) ∧
    (chain.kzg_commitments_match_transactions txs comms = true →
      chain.kzg = some () →
      chain.validate_blobs_sidecar slot root comms sc = .ok false →
      verify_data_availability chain sc comms txs slot root =
        .error .invalidKzgProof) ∧
    (verify_data_availability chain sc comms txs slot root = .ok () ↔
      chain.kzg_commitments_match_transactions txs comms = true ∧
      chain.kzg = some () ∧
      chain.validate_blobs_sidecar slot root comms sc = .ok true) := by
  refine ⟨?_, ?_, ?_, ?_, ?_⟩
  · intro h
    simp [verify_data_availability, h]
  · intro h hk
    simp [verify_data_availability, h, hk]
  · intro e h hk hv
    simp [verify_data_availability, h, hk, hv]
  · intro h hk hv
    simp [verify_data_availability, h, hk, hv]
  · constructor
    · intro h
      by_cases hc : chain.kzg_commitments_match_transactions txs comms = true
      · cases hk : chain.kzg with
        | none => simp [verify_data_availability, hc, hk] at h
        | some u =>
          cases u
          refine ⟨hc, rfl, ?_⟩
          cases hv : chain.validate_blobs_sidecar slot root comms sc with
          | error e => simp [verify_data_availability, hc, hk, hv] at h
          | ok b =>
            cases b
            · simp [verify_data_availability, hc, hk, hv] at h
            · rfl
      · rw [Bool.not_eq_true] at hc
        simp [verify_data_availability, hc] at h
    · rintro ⟨hc, hk, hv⟩
      simp [verify_data_availability, hc, hk, hv]

/-- Claim C5 witness: all three checks passing yields Ok, and a failing
binding check yields TransactionCommitmentMismatch. -/
theorem verify_data_availability_spec_witness :
    verify_data_availability exChain exSc [1] [1] 5 0 = .ok () ∧
    verify_data_availability
      ({ exChain with kzg_commitments_match_transactions := fun _ _ => false })
      exSc [1] [1] 5 0 = .error .transactionCommitmentMismatch := by
  refine ⟨(verify_data_availability_spec exChain exSc [1] [1] 5 0).2.2.2.2.mpr
    ⟨rfl, rfl, rfl⟩, ?_⟩
  exact (verify_data_availability_spec
    ({ exChain with kzg_commitments_match_transactions := fun _ _ => false })
    exSc [1] [1] 5 0).1 rfl

/-- Claim C2 counterexample: a pre-Eip4844 block in a BlockAndBlob wrapper
makes into_available_block return an error (InconsistentFork), refuting that
the function never fails for pre-Eip4844 blocks regardless of wrapper shape. -/
theorem into_available_block_pre4844_counterexample :
    (BlockWrapper.into_available_block (.blockAndBlob exBlockBase exSc) 0
      exChain).result = .error .inconsistentFork := by
  rfl

/-- Claim C2 (amended): for a block whose fork precedes Eip4844,
into_available_block never invokes the availability verifier for either
wrapper shape; a Block-shaped wrapper always certifies (Ok), while a
BlockAndBlob-shaped wrapper always fails: with KzgCommitmentMissing when the
DA check is required and with InconsistentFork when it is not. -/
theorem into_available_block_pre4844 (chain : BeaconChain)
    (blk : SignedBeaconBlock) (sc : BlobsSidecar) (root : Hash256)
    (h : blk.fork ≠ .eip4844) :
    (BlockWrapper.into_available_block (.block blk) root chain).verifierInvoked
      = false ∧
    (∃ ab, (BlockWrapper.into_available_block (.block blk) root chain).result
      = .ok ab) ∧
    (BlockWrapper.into_available_block (.blockAndBlob blk sc) root
      chain).verifierInvoked = false ∧
    ((BlockWrapper.into_available_block (.blockAndBlob blk sc) root
        chain).daCheckRequired = .yes →
      (BlockWrapper.into_available_block (.blockAndBlob blk sc) root
        chain).result = .error .kzgCommitmentMissing) ∧
    ((BlockWrapper.into_available_block (.blockAndBlob blk sc) root
        chain).daCheckRequired = .no →
      (BlockWrapper.into_available_block (.blockAndBlob blk sc) root
        chain).result = .error .inconsistentFork) := by
  have hbkc : blk.blob_kzg_commitments = .error () := by
    unfold SignedBeaconBlock.blob_kzg_commitments
    cases hf : blk.fork <;> first | rfl | exact absurd hf h
  refine ⟨rfl, ⟨⟨.block blk⟩, ?_⟩, ?_, ?_, ?_⟩
  · show AvailableBlock.new blk root
      (compute_da_check_required chain.data_availability_boundary
        (BlockWrapper.slot (.block blk)) chain.slots_per_epoch) = .ok ⟨.block blk⟩
    unfold AvailableBlock.new
    cases hf : blk.fork <;> first | rfl | exact absurd hf h
  · cases hda : compute_da_check_required chain.data_availability_boundary
        (BlockWrapper.slot (.blockAndBlob blk sc)) chain.slots_per_epoch with
    | yes =>
      simp [BlockWrapper.into_available_block, hda, hbkc]
    | no =>
      simp [BlockWrapper.into_available_block, hda]
  · intro hy
    rw [into_available_block_flag] at hy
    simp [BlockWrapper.into_available_block, hy, hbkc]
  · intro hn
    rw [into_available_block_flag] at hn
    have hnwb : AvailableBlock.new_with_blobs blk sc .no =
        .error .inconsistentFork := by
      unfold AvailableBlock.new_with_blobs
      cases hf : blk.fork <;> first | rfl | exact absurd hf h
    simp [BlockWrapper.into_available_block, hn, hnwb]

/-- Claim C2 witness: the amended theorem applied with the DA check not
required (boundary unset) and with it required (boundary zero). -/
theorem into_available_block_pre4844_witness :
    (BlockWrapper.into_available_block (.blockAndBlob exBlockBase exSc) 0
      exChain).result = .error .inconsistentFork ∧
    (BlockWrapper.into_available_block (.blockAndBlob exBlockBase exSc) 0
      ({ exChain with data_availability_boundary := some 0 })).result
      = .error .kzgCommitmentMissing := by
  refine ⟨(into_available_block_pre4844 exChain exBlockBase exSc 0
    (by decide)).2.2.2.2 rfl, ?_⟩
  exact (into_available_block_pre4844
    ({ exChain with data_availability_boundary := some 0 })
    exBlockBase exSc 0 (by decide)).2.2.2.1 rfl

/-- Claim C7: evaluating validate_blob_for_gossip at a future-slot sidecar
shows the FutureSlot error fields are swapped by the code: message_slot
carries the computed latest permissible slot (5) and latest_permissible_slot
carries the sidecar slot (10), the opposite of the field names, of the error
documentation, and of the sibling validator; the SlotMismatch half of the
claim holds as stated. -/
theorem validate_blob_for_gossip_future_slot_fields :
    validate_blob_for_gossip
      (.blockAndBlob exBlockBase ({ exSc with beacon_block_slot := 10 })) 0
      exChain = .error (.futureSlot 5 10) ∧
    validate_blob_for_gossip
      (.blockAndBlob exBlockBase ({ exSc with beacon_block_slot := 10 })) 0
      ({ exChain with now_with_future_tolerance := some 20 })
      = .error (.slotMismatch 10 5) := by
  exact ⟨rfl, rfl⟩

/-- Claim C4: validate_blob_sidecar_for_gossip performs its checks in strict
short-circuiting order: subnet/index equality, future-slot bound, finalized
slot bound, proposer identity (under the resolved proposer), proposer
signature, and last of all the known-block check; a wrong subnet is reported
even when every later check would also fail, and assuming all earlier checks
pass the call succeeds exactly when fork choice or the early-attester cache
knows the referenced block. -/
theorem validate_blob_sidecar_order (chain : BeaconChain)
    (s : SignedBlobSidecar) (subnet : Nat) :
    (s.message.index ≠ subnet →
      validate_blob_sidecar_for_gossip chain s subnet =
        .error (.invalidSubnet s.message.index subnet)) ∧
    (∀ lps, s.message.index = subnet →
      chain.now_with_future_tolerance = some lps →
      lps < s.message.slot →
      validate_blob_sidecar_for_gossip chain s subnet =
        .error (.futureSlot s.message.slot lps)) ∧
    (∀ lps, s.message.index = subnet →
      chain.now_with_future_tolerance = some lps →
      s.message.slot ≤ lps →
      s.message.slot ≤ epoch_start_slot chain.finalized_epoch
        chain.slots_per_epoch →
      validate_blob_sidecar_for_gossip chain s subnet =
        .error (.pastFinalizedSlot s.message.slot
          (epoch_start_slot chain.finalized_epoch chain.slots_per_epoch))) ∧
    (∀ lps pi fk, s.message.index = subnet →
      chain.now_with_future_tolerance = some lps →
      s.message.slot ≤ lps →
      epoch_start_slot chain.finalized_epoch chain.slots_per_epoch <
        s.message.slot →
      chain.proposer_cache_get_slot s.message.block_parent_root
        s.message.slot = some (pi, fk) →
      pi ≠ s.message.proposer_index →
      validate_blob_sidecar_for_gossip chain s subnet =
        .error (.proposerIndexMismatch s.message.proposer_index pi)) ∧
    (∀ lps fk pk, s.message.index = subnet →
      chain.now_with_future_tolerance = some lps →
      s.message.slot ≤ lps →
      epoch_start_slot chain.finalized_epoch chain.slots_per_epoch <
        s.message.slot →
      chain.proposer_cache_get_slot s.message.block_parent_root
        s.message.slot = some (s.message.proposer_index, fk) →
      chain.pubkey_cache_available = true →
      chain.pubkey_cache_get s.message.proposer_index = some pk →
      chain.verify_blob_signature s pk fk = false →
      validate_blob_sidecar_for_gossip chain s subnet =
        .error .proposerSignatureInvalid) ∧
    (∀ lps fk pk, s.message.index = subnet →
      chain.now_with_future_tolerance = some lps →
      s.message.slot ≤ lps →
      epoch_start_slot chain.finalized_epoch chain.slots_per_epoch <
        s.message.slot →
      chain.proposer_cache_get_slot s.message.block_parent_root
        s.message.slot = some (s.message.proposer_index, fk) →
      chain.pubkey_cache_available = true →
      chain.pubkey_cache_get s.message.proposer_index = some pk →
      chain.verify_blob_signature s pk fk = true →
      ((chain.fork_choice_get_block s.message.block_root = none →
        chain.early_attester_get_proto_block s.message.block_root = none →
        validate_blob_sidecar_for_gossip chain s subnet =
          .error (.unknownHeadBlock s.message.block_root)) ∧
      (∀ u, chain.fork_choice_get_block s.message.block_root = some u →
        validate_blob_sidecar_for_gossip chain s subnet = .ok ()) ∧
      (∀ u, chain.fork_choice_get_block s.message.block_root = none →
        chain.early_attester_get_proto_block s.message.block_root = some u →
        validate_blob_sidecar_for_gossip chain s subnet = .ok ()))) := by
  refine ⟨?_, ?_, ?_, ?_, ?_, ?_⟩
  · intro h
    simp [validate_blob_sidecar_for_gossip, h]
  · intro lps h1 h2 h3
    simp [validate_blob_sidecar_for_gossip, h1, h2, h3]
  · intro lps h1 h2 h3 h4
    simp [validate_blob_sidecar_for_gossip, h1, h2, Nat.not_lt.mpr h3, h4]
  · intro lps pi fk h1 h2 h3 h4 h5 h6
    simp [validate_blob_sidecar_for_gossip, h1, h2, Nat.not_lt.mpr h3,
      Nat.not_le.mpr h4, h5, h6]
  · intro lps fk pk h1 h2 h3 h4 h5 hpa hpk hsig
    simp [validate_blob_sidecar_for_gossip, h1, h2, Nat.not_lt.mpr h3,
      Nat.not_le.mpr h4, h5, hpa, hpk, hsig]
  · intro lps fk pk h1 h2 h3 h4 h5 hpa hpk hsig
    refine ⟨?_, ?_, ?_⟩
    · intro hfc hea
      simp [validate_blob_sidecar_for_gossip, h1, h2, Nat.not_lt.mpr h3,
        Nat.not_le.mpr h4, h5, hpa, hpk, hsig, hfc, hea]
    · intro u hfc
      simp [validate_blob_sidecar_for_gossip, h1, h2, Nat.not_lt.mpr h3,
        Nat.not_le.mpr h4, h5, hpa, hpk, hsig, hfc]
    · intro u hfc hea
      simp [validate_blob_sidecar_for_gossip, h1, h2, Nat.not_lt.mpr h3,
        Nat.not_le.mpr h4, h5, hpa, hpk, hsig, hfc, hea]

/-- Claim C4 witness: a wrong subnet is reported as InvalidSubnet, and with
the subnet correct and every oracle succeeding the call returns Ok. -/
theorem validate_blob_sidecar_order_witness :
    validate_blob_sidecar_for_gossip exChain exSignedSidecar 5 =
      .error (.invalidSubnet 3 5) ∧
    validate_blob_sidecar_for_gossip exChain exSignedSidecar 3 = .ok () := by
  refine ⟨(validate_blob_sidecar_order exChain exSignedSidecar 5).1
    (by decide), ?_⟩
  exact ((validate_blob_sidecar_order exChain exSignedSidecar 3).2.2.2.2.2
    5 1 100 rfl rfl (by decide) (by decide) rfl rfl rfl rfl).2.1 () rfl

/-- Helper: assocFind misses exactly when no entry carries the key. -/
theorem assocFind_eq_none_iff (k : BlobCacheId)
    (l : List (BlobCacheId × BlobSidecar)) :
    assocFind k l = none ↔ ∀ p ∈ l, p.1 ≠ k := by
  induction l with
  | nil => simp [assocFind]
  | cons hd tl ih =>
    obtain ⟨k2, v⟩ := hd
    by_cases hk : k2 = k
    · subst hk
      simp [assocFind]
    · simp [assocFind, hk, ih]

/-- Helper: dropping the least recently used entry cannot introduce a key. -/
theorem assocFind_dropLast (k : BlobCacheId)
    (l : List (BlobCacheId × BlobSidecar)) (h : assocFind k l = none) :
    assocFind k l.dropLast = none := by
  rw [assocFind_eq_none_iff] at h ⊢
  intro p hp
  exact h p ((List.dropLast_sublist l).subset hp)

/-- Helper: erasing a key from an entry list with distinct keys removes it. -/
theorem assocFind_assocErase (k : BlobCacheId)
    (l : List (BlobCacheId × BlobSidecar)) (h : (l.map Prod.fst).Nodup) :
    assocFind k (assocErase k l) = none := by
  induction l with
  | nil => rfl
  | cons hd tl ih =>
    obtain ⟨k2, v⟩ := hd
    rw [List.map_cons, List.nodup_cons] at h
    by_cases hk : k2 = k
    · subst hk
      rw [assocErase, if_pos rfl, assocFind_eq_none_iff]
      intro p hp hpk
      exact h.1 (List.mem_map.mpr ⟨p, hp, hpk⟩)
    · rw [assocErase, if_neg hk, assocFind, if_neg hk]
      exact ih h.2

/-- Claim C9: on a cache whose keys are distinct (the invariant the lru crate
maintains), put followed immediately by pop on the same key returns the
inserted sidecar, a second pop on that key returns nothing, the default
cache capacity is default_cache_slots times max_blobs_per_block with
default_cache_slots equal to 10, and put and pop never change the capacity
fixed at construction. -/
theorem blob_cache_put_pop (c : BlobSidecarsCache) (root : Hash256)
    (blob : BlobSidecar) (idx : Nat) (max_blobs : Nat)
    (h : (c.blobs.entries.map Prod.fst).Nodup) :
    ((c.put root blob idx).2.pop root idx).1 = some blob ∧
    ((((c.put root blob idx).2.pop root idx).2).pop root idx).1 = none ∧
    (BlobSidecarsCache.default max_blobs).blobs.cap =
      DEFAULT_BLOB_CACHE_SIZE * max_blobs ∧
    DEFAULT_BLOB_CACHE_SIZE = 10 ∧
    (c.put root blob idx).2.blobs.cap = c.blobs.cap ∧
    (c.pop root idx).2.blobs.cap = c.blobs.cap := by
  have hcap : ∀ k v, (c.blobs.put k v).2.cap = c.blobs.cap := by
    intro k v
    unfold LruCache.put
    cases hf : assocFind k c.blobs.entries <;> rfl
  have hcapPop : ∀ k, (c.blobs.pop k).2.cap = c.blobs.cap := by
    intro k
    unfold LruCache.pop
    cases hf : assocFind k c.blobs.entries <;> rfl
  refine ⟨?_, ?_, rfl, rfl, hcap _ _, hcapPop _⟩
  · simp only [BlobSidecarsCache.put, BlobSidecarsCache.pop, LruCache.put,
      LruCache.pop]
    cases hf : assocFind ({ block_root := root, blob_index := idx } :
        BlobCacheId) c.blobs.entries with
    | some old => simp [hf, assocFind]
    | none => simp [hf, assocFind]
  · simp only [BlobSidecarsCache.put, BlobSidecarsCache.pop, LruCache.put,
      LruCache.pop]
    cases hf : assocFind ({ block_root := root, blob_index := idx } :
        BlobCacheId) c.blobs.entries with
    | some old =>
      have h2 := assocFind_assocErase
        ({ block_root := root, blob_index := idx } : BlobCacheId)
        c.blobs.entries h
      simp [hf, assocFind, assocErase, h2]
    | none =>
      by_cases hl : c.blobs.entries.length = c.blobs.cap
      · have h2 := assocFind_dropLast
          ({ block_root := root, blob_index := idx } : BlobCacheId)
          c.blobs.entries hf
        simp [hf, hl, assocFind, assocErase, h2]
      · simp [hf, hl, assocFind, assocErase]

/-- Claim C9 witness: the theorem applied to the freshly constructed default
cache with max_blobs_per_block equal to 4. -/
theorem blob_cache_put_pop_witness :
    (((BlobSidecarsCache.default 4).put 1 BlobSidecar.empty 2).2.pop 1 2).1 =
      some BlobSidecar.empty ∧
    ((((BlobSidecarsCache.default 4).put 1 BlobSidecar.empty 2).2.pop 1
      2).2.pop 1 2).1 = none ∧
    (BlobSidecarsCache.default 4).blobs.cap = 40 := by
  have hn : (((BlobSidecarsCache.default 4).blobs.entries.map Prod.fst)).Nodup := by
    simp [BlobSidecarsCache.default, LruCache.new]
  refine ⟨(blob_cache_put_pop (BlobSidecarsCache.default 4) 1 BlobSidecar.empty
    2 4 hn).1, (blob_cache_put_pop (BlobSidecarsCache.default 4) 1
    BlobSidecar.empty 2 4 hn).2.1, rfl⟩

/-- Claim C8 counterexample: a successful fetch call that fetched one blob
(all declared blobs) with columnar redundancy coding enabled on a node that
is not a supernode invokes the publish callback zero times, refuting that the
callback is invoked exactly once on every successful fetch that obtained at
least one blob. -/
theorem fetch_publish_counterexample :
    (fetch_blobs_and_publish exFetchChain exFetchBlock 0).result = .ok () ∧
    (fetch_blobs_and_publish exFetchChain exFetchBlock 0).fetchedCount = 1 ∧
    (fetch_blobs_and_publish exFetchChain exFetchBlock 0).publishes = [] := by
  refine ⟨rfl, rfl, rfl⟩

/-- Claim C8 (amended): on every fetch call that succeeds after fetching at
least one blob, the publish callback is invoked at most once; it is invoked
exactly once with the plain built sidecar list whenever the column path is
not taken (partial fetch or redundancy coding disabled for the epoch); on the
column path it is invoked exactly once with the built data-column list when
the node custodies the entire column set and the column build succeeds, and
zero times when the node is not a supernode or the column build fails. -/
theorem fetch_publish_spec (chain : FetchChain) (block : FetchBlock)
    (root : Hash256)
    (hok : (fetch_blobs_and_publish chain block root).result = .ok ())
    (hfetched : 1 ≤ (fetch_blobs_and_publish chain block root).fetchedCount) :
    (fetch_blobs_and_publish chain block root).publishes.length ≤ 1 ∧
    ((fetch_blobs_and_publish chain block root).columnPathTaken = false →
      (fetch_blobs_and_publish chain block root).publishes =
        [.blobs ((fetch_blobs_and_publish chain block
          root).builtSidecars.filterMap id)]) ∧
    ((fetch_blobs_and_publish chain block root).columnPathTaken = true →
      (∀ cols, chain.build_data_column_sidecars
          ((fetch_blobs_and_publish chain block root).builtSidecars.filterMap
            (fun b => b.map (fun s => s.blob))) = .ok cols →
        ((chain.custody_columns_count = chain.number_of_columns →
          (fetch_blobs_and_publish chain block root).publishes =
            [.dataColumns cols]) ∧
        (chain.custody_columns_count ≠ chain.number_of_columns →
          (fetch_blobs_and_publish chain block root).publishes = []))) ∧
      (∀ e, chain.build_data_column_sidecars
          ((fetch_blobs_and_publish chain block root).builtSidecars.filterMap
            (fun b => b.map (fun s => s.blob))) = .error e →
        (fetch_blobs_and_publish chain block root).publishes = [])) := by
  rcases hbkc : block.blob_kzg_commitments with u | cs
  · simp [fetch_blobs_and_publish, hbkc] at hfetched
  · by_cases hcs : cs = []
    · subst hcs
      simp [fetch_blobs_and_publish, hbkc] at hfetched
    · have hne : ((cs.map kzg_commitment_to_versioned_hash).isEmpty) = false := by
        simp [List.isEmpty_iff, hcs]
      by_cases hel : chain.execution_layer_present = true
      · rcases hgb : chain.get_blobs (cs.map kzg_commitment_to_versioned_hash)
          with u | response
        · simp [fetch_blobs_and_publish, hbkc, hne, hel, hgb] at hok
        · by_cases h0 : (response.filter Option.isSome).length = 0
          · simp [fetch_blobs_and_publish, hbkc, hne, hel, hgb, h0] at hfetched
          · rcases hhp : block.header_and_proof with u | hp
            · simp [fetch_blobs_and_publish, hbkc, hne, hel, hgb, h0, hhp]
                at hok
            · by_cases hpd : (chain.is_peer_das_enabled_for_epoch
                  (slot_epoch block.slot chain.slots_per_epoch) = true ∧
                  cs.length ≤ (response.filter Option.isSome).length)
              · rcases hkzg : chain.kzg with _ | u
                · simp [fetch_blobs_and_publish, hbkc, hne, hel, hgb, h0, hhp,
                    hpd, hkzg] at hok
                · by_cases hta : chain.task_executor_alive = true
                  · rcases hbd : chain.build_data_column_sidecars
                        ((buildFixedSidecarList chain response).filterMap
                          (fun b => b.map (fun s => s.blob))) with e | cols
                    · simp [fetch_blobs_and_publish, hbkc, hne, hel, hgb, h0,
                        hhp, hpd, hkzg, hta, hbd]
                    · by_cases hsn : chain.custody_columns_count =
                          chain.number_of_columns
                      · simp [fetch_blobs_and_publish, hbkc, hne, hel, hgb,
                          h0, hhp, hpd, hkzg, hta, hbd, hsn]
                      · simp [fetch_blobs_and_publish, hbkc, hne, hel, hgb,
                          h0, hhp, hpd, hkzg, hta, hbd, hsn]
                  · rw [Bool.not_eq_true] at hta
                    simp [fetch_blobs_and_publish, hbkc, hne, hel, hgb, h0,
                      hhp, hpd, hkzg, hta] at hok
              · simp [fetch_blobs_and_publish, hbkc, hne, hel, hgb, h0, hhp,
                  hpd]
      · rw [Bool.not_eq_true] at hel
        simp [fetch_blobs_and_publish, hbkc, hne, hel] at hok

/-- Claim C8 witness: the amended theorem applied on the plain-sidecar path
(redundancy coding disabled) and on the supernode column path. -/
theorem fetch_publish_spec_witness :
    (fetch_blobs_and_publish
      ({ exFetchChain with is_peer_das_enabled_for_epoch := fun _ => false })
      exFetchBlock 0).publishes =
      [.blobs [{ index := 0, blob := 1, meta := 0 }]] ∧
    (fetch_blobs_and_publish
      ({ exFetchChain with custody_columns_count := 128 })
      exFetchBlock 0).publishes = [.dataColumns [1, 2]] := by
  constructor
  · exact (fetch_publish_spec
      ({ exFetchChain with is_peer_das_enabled_for_epoch := fun _ => false })
      exFetchBlock 0 rfl (by decide)).2.1 rfl
  · exact ((fetch_publish_spec
      ({ exFetchChain with custody_columns_count := 128 })
      exFetchBlock 0 rfl (by decide)).2.2 rfl).1 [1, 2] rfl |>.1 rfl

/-- Claim C10: failures of the spawned column-build task are swallowed: the
value returned by fetch_blobs_and_publish is unchanged under any replacement
of the column-build outcome and of the handoff-channel send outcome (so
neither a build failure nor a send failure ever fails the enclosing call),
and the capacity-one handoff channel is sent on at most once per fetch call. -/
theorem fetch_column_task_isolated (chain : FetchChain) (block : FetchBlock)
    (root : Hash256) (f g : List Nat → Except Unit (List Nat))
    (b1 b2 : Bool) :
    (fetch_blobs_and_publish
        ({ chain with build_data_column_sidecars := f, channel_send_ok := b1 })
        block root).result =
      (fetch_blobs_and_publish
        ({ chain with build_data_column_sidecars := g, channel_send_ok := b2 })
        block root).result ∧
    (fetch_blobs_and_publish chain block root).sendAttempts ≤ 1 ∧
    (fetch_blobs_and_publish chain block root).channelContents.length ≤ 1 := by
  rcases hbkc : block.blob_kzg_commitments with u | cs
  · simp [fetch_blobs_and_publish, hbkc]
  · by_cases hcs : cs = []
    · subst hcs
      simp [fetch_blobs_and_publish, hbkc]
    · have hne : ((cs.map kzg_commitment_to_versioned_hash).isEmpty) = false := by
        simp [List.isEmpty_iff, hcs]
      by_cases hel : chain.execution_layer_present = true
      · rcases hgb : chain.get_blobs (cs.map kzg_commitment_to_versioned_hash)
          with u | response
        · simp [fetch_blobs_and_publish, hbkc, hne, hel, hgb]
        · by_cases h0 : (response.filter Option.isSome).length = 0
          · simp [fetch_blobs_and_publish, hbkc, hne, hel, hgb, h0]
          · rcases hhp : block.header_and_proof with u | hp
            · simp [fetch_blobs_and_publish, hbkc, hne, hel, hgb, h0, hhp]
            · by_cases hpd : (chain.is_peer_das_enabled_for_epoch
                  (slot_epoch block.slot chain.slots_per_epoch) = true ∧
                  cs.length ≤ (response.filter Option.isSome).length)
              · rcases hkzg : chain.kzg with _ | u
                · simp [fetch_blobs_and_publish, hbkc, hne, hel, hgb, h0, hhp,
                    hpd, hkzg]
                · by_cases hta : chain.task_executor_alive = true
                  · refine ⟨?_, ?_, ?_⟩
                    · simp [fetch_blobs_and_publish, hbkc, hne, hel, hgb, h0,
                        hhp, hpd, hkzg, hta]
                    · rcases hbd : chain.build_data_column_sidecars
                          ((buildFixedSidecarList chain response).filterMap
                            (fun b => b.map (fun s => s.blob))) with e | cols
                      · simp [fetch_blobs_and_publish, hbkc, hne, hel, hgb,
                          h0, hhp, hpd, hkzg, hta, hbd]
                      · simp [fetch_blobs_and_publish, hbkc, hne, hel, hgb,
                          h0, hhp, hpd, hkzg, hta, hbd]
                    · rcases hbd : chain.build_data_column_sidecars
                          ((buildFixedSidecarList chain response).filterMap
                            (fun b => b.map (fun s => s.blob))) with e | cols
                      · simp [fetch_blobs_and_publish, hbkc, hne, hel, hgb,
                          h0, hhp, hpd, hkzg, hta, hbd]
                      · cases hsend : chain.channel_send_ok <;>
                          simp [fetch_blobs_and_publish, hbkc, hne, hel, hgb,
                            h0, hhp, hpd, hkzg, hta, hbd, hsend]
                  · rw [Bool.not_eq_true] at hta
                    simp [fetch_blobs_and_publish, hbkc, hne, hel, hgb, h0,
                      hhp, hpd, hkzg, hta]
              · simp [fetch_blobs_and_publish, hbkc, hne, hel, hgb, h0, hhp,
                  hpd]
      · rw [Bool.not_eq_true] at hel
        simp [fetch_blobs_and_publish, hbkc, hne, hel]
